import Mathlib

/-!
Shallow embedding of the generation-orchestration core of The-Historian
(a TypeScript/React application).  Each definition is translated from the
repository source; file and line references are given in the doc comments.
Machine reals (JS numbers) that the claims depend on only through exact
arithmetic (delays, scrub distances, PCM samples) are modelled as `ℚ`.
Asynchronous remote calls are modelled by explicit outcome oracles
(`Except RemoteError _`), and the observable behaviour of a run is captured
as a trace of events (status updates, remote calls, cache writes).
-/

/-- `pat` is a leading segment of `s` (character lists). -/
def leadsWith : List Char → List Char → Bool
  | [], _ => true
  | _ :: _, [] => false
  | a :: as, b :: bs => a == b && leadsWith as bs

/-- `pat` occurs contiguously somewhere in `s` (character lists). -/
def occursIn (pat : List Char) : List Char → Bool
  | [] => leadsWith pat []
  | b :: bs => leadsWith pat (b :: bs) || occursIn pat bs

/-- JS `String.prototype.includes`: `pat` occurs contiguously in `s`.
Used by the retry classifier (src/services/geminiService.ts lines 78-81). -/
def strIncludes (s pat : String) : Bool :=
  occursIn pat.data s.data

/-- JS `x || y` on an optional string, where the empty string is falsy. -/
def jsOr (o : Option String) (dflt : String) : String :=
  match o with
  | some s => if s = "" then dflt else s
  | none => dflt

/-! ## ResilientCall: `retryOperation` (src/services/geminiService.ts lines 62-90) -/

/-- A remote failure as seen by `retryOperation`: JS errors carry optional
`status` and `code` numeric fields and an optional `message` string
(absent message is modelled as `""`, which is what `error?.message || ""`
produces). -/
structure RemoteError where
  status : Option Nat
  code : Option Nat
  message : String
deriving DecidableEq

/-- `error?.status || error?.code` (line 70): a missing or zero (falsy)
`status` falls through to `code`. -/
def effStatus (e : RemoteError) : Option Nat :=
  match e.status with
  | some s => if s = 0 then e.code else some s
  | none => e.code

/-- The retry classifier (lines 73-81): status in {429, 503, 500, 504} or
message containing one of "429", "503", "overloaded", "quota". -/
def isRetryable (e : RemoteError) : Bool :=
  effStatus e == some 429 ||
  effStatus e == some 503 ||
  effStatus e == some 500 ||
  effStatus e == some 504 ||
  strIncludes e.message "429" ||
  strIncludes e.message "503" ||
  strIncludes e.message "overloaded" ||
  strIncludes e.message "quota"

/-- Observable outcome of a `retryOperation` run: the propagated result,
the number of times the wrapped operation was invoked, and the list of
waits performed between attempts (in ms). -/
structure RetryTrace (α : Type) where
  result : Except RemoteError α
  attempts : Nat
  delays : List ℚ

/-- Default `retries` parameter of `retryOperation` (line 64). -/
def defaultRetries : Nat := 3

/-- Default `baseDelay` parameter of `retryOperation` (line 65). -/
def defaultBaseDelay : ℚ := 1500

/-- `retryOperation` (src/services/geminiService.ts lines 62-90).
The wrapped operation is modelled by the oracle `op` giving the outcome of
the k-th invocation (k counted from `k0`), and `Math.random() * 1000`
(line 84) by the jitter oracle `jit`.  On failure, when `retries > 0` and
the error is retryable, the code waits `baseDelay + jitter` and recurses
with `retries - 1` and `baseDelay * 1.5`; otherwise the error is rethrown
unchanged (line 88).  The guard `retries > 0 && isRetryable` is decomposed
into the outer match on `retries` and the inner `if`. -/
def retryOperation {α : Type} (op : Nat → Except RemoteError α) (jit : Nat → ℚ) :
    Nat → Nat → ℚ → RetryTrace α
  | k0, 0, _baseDelay =>
    match op k0 with
    | .ok a => ⟨.ok a, 1, []⟩
    | .error e => ⟨.error e, 1, []⟩
  | k0, retries + 1, baseDelay =>
    match op k0 with
    | .ok a => ⟨.ok a, 1, []⟩
    | .error e =>
      if isRetryable e then
        let rest := retryOperation op jit (k0 + 1) retries (baseDelay * (3 / 2))
        ⟨rest.result, rest.attempts + 1, (baseDelay + jit k0) :: rest.delays⟩
      else ⟨.error e, 1, []⟩

/-! ## AudioDecoder: `decodeRawPcm` (src/services/geminiService.ts lines 20-45) -/

/-- A decoded linear sample buffer (the relevant observable content of a
Web Audio `AudioBuffer`): channel count, sample rate, and the per-channel
float samples (mono here, so a single list). -/
structure AudioBuffer where
  numChannels : Nat
  sampleRate : Nat
  samples : List ℚ
deriving DecidableEq

/-- `byteData.slice(0, length - 1)` when the byte length is odd
(lines 28-30): a trailing odd byte is dropped. -/
def dropOddTail (bytes : List Nat) : List Nat :=
  if bytes.length % 2 ≠ 0 then bytes.take (bytes.length - 1) else bytes

/-- Grouping an even-length byte list into consecutive (low, high) pairs:
the view `new Int16Array(byteData.buffer)` takes of the bytes (line 32),
little-endian. -/
def pairBytes : List Nat → List (Nat × Nat)
  | lo :: hi :: rest => (lo, hi) :: pairBytes rest
  | _ => []

/-- Two's-complement reading of a 16-bit word as a signed integer
(what an `Int16Array` element holds). -/
def int16OfNat (v : Nat) : Int :=
  if v < 32768 then (v : Int) else (v : Int) - 65536

/-- The signed 16-bit samples of a raw PCM byte stream: odd tail dropped,
bytes paired little-endian, each pair read as a signed 16-bit integer. -/
def pcmInt16s (bytes : List Nat) : List Int :=
  (pairBytes (dropOddTail bytes)).map (fun p => int16OfNat (p.1 + 256 * p.2))

/-- `decodeRawPcm` (src/services/geminiService.ts lines 20-45): headerless
little-endian signed 16-bit mono PCM at 24000 Hz; each sample `s` becomes
the float `s / 32768.0` (line 40). -/
def decodeRawPcm (bytes : List Nat) : AudioBuffer :=
  { numChannels := 1
    sampleRate := 24000
    samples := (pcmInt16s bytes).map (fun s : Int => (s : ℚ) / 32768) }

/-! ## AudioPlayer.loadAudio decode fallback
(src/components/HistorianAgent.tsx lines 396-423) -/

/-- The two decode strategies, in the order `loadAudio` tries them. -/
inductive DecodeStrategy where
  | standard
  | rawPcm
deriving DecidableEq

/-- The decode portion of `AudioPlayer.loadAudio` (lines 404-413): try
`decodeStandardAudio`; on its failure fall back to `decodeRawPcm`.  The
two platform decoders are modelled by their outcomes (`stdResult`,
`rawResult`); the function returns the list of strategies attempted, in
order, together with the overall decode outcome. -/
def loadAudioDecode (stdResult rawResult : Except String AudioBuffer) :
    List DecodeStrategy × Except String AudioBuffer :=
  match stdResult with
  | .ok b => ([DecodeStrategy.standard], .ok b)
  | .error _ => ([DecodeStrategy.standard, DecodeStrategy.rawPcm], rawResult)

/-! ## Data model (src/unnamed/part_002: types.ts) -/

/-- A citation record. -/
structure SourceRef where
  title : String
  url : String
deriving DecidableEq

/-- `SceneHotspot` (types.ts): normalized position in [0,1]×[0,1]. -/
structure SceneHotspot where
  id : String
  name : String
  description : String
  x : ℚ
  y : ℚ
deriving DecidableEq

/-- The `'text' | 'audio'` union of `UserNote.type`. -/
inductive NoteKind where
  | text
  | audio
deriving DecidableEq

/-- `UserNote` (types.ts); the TS field `type` is rendered as `kind`. -/
structure UserNote where
  id : String
  kind : NoteKind
  content : String
  timestamp : Nat
  yearContext : Int
deriving DecidableEq

/-- `TimelineEvent` (types.ts): optional TS fields become `Option`. -/
structure TimelineEvent where
  year : Int
  title : String
  description : String
  visualPrompt : String
  imageUrl : Option String
  isGenerated : Bool
  isPanoramic : Option Bool
  hotspots : Option (List SceneHotspot)
deriving DecidableEq

/-- `LandmarkData` (types.ts).  The `fullReport` field (a back-reference to
a research paper, set only by the paper-journey flow) is not touched by any
orchestration claim and is omitted. -/
structure LandmarkData where
  id : String
  name : String
  location : String
  originalImage : Option String
  timeline : List TimelineEvent
  audioNarrative : Option String
  isCustom : Bool
  userNotes : Option (List UserNote)
  sources : Option (List SourceRef)
deriving DecidableEq

/-- The `LoadingState.status` union (types.ts). -/
inductive GenStatus where
  | idle
  | identifying
  | planning
  | visualizing
  | narrating
  | ready
  | error
deriving DecidableEq

/-- `LoadingState` (types.ts). -/
structure LoadingState where
  status : GenStatus
  message : Option String
  progress : Option Nat
deriving DecidableEq

/-- `ViewMode` (types.ts). -/
inductive ViewMode where
  | home
  | experience
deriving DecidableEq

/-- The per-preset fleet status union `'ready' | 'loading' | 'idle'`
(src/App.tsx line 46). -/
inductive PresetStatus where
  | ready
  | loading
  | idle
deriving DecidableEq

/-- One catalog entry of `PRESETS` (src/App.tsx lines 17-24). -/
structure Preset where
  id : String
  name : String
  location : String
  image : String
deriving DecidableEq

/-- The fixed preset catalog (src/App.tsx lines 17-24). -/
def PRESETS : List Preset :=
  [ ⟨"eiffel", "Eiffel Tower", "Paris, France",
      "https://images.unsplash.com/photo-1511739001486-6bfe10ce785f?auto=format&fit=crop&q=80&w=800"⟩,
    ⟨"sagrada", "Sagrada Família", "Barcelona, Spain", "./images/sagrada.png"⟩,
    ⟨"colosseum", "Colosseum", "Rome, Italy",
      "https://images.unsplash.com/photo-1552832230-c0197dd311b5?auto=format&fit=crop&q=80&w=800"⟩,
    ⟨"stpauls", "St Paul's Cathedral", "London, UK", "./images/stpaul.png"⟩,
    ⟨"tajmahal", "Taj Mahal", "Agra, India", "./images/tajmahal.png"⟩,
    ⟨"greatwall", "Great Wall of China", "Huairou, China",
      "https://images.unsplash.com/photo-1508804185872-d7badad00f7d?auto=format&fit=crop&q=80&w=800"⟩ ]

/-- A timeline-event skeleton as produced by the planning capability before
the service-side post-processing (year/title/description/visualPrompt). -/
structure RawPlanEvent where
  year : Int
  title : String
  description : String
  visualPrompt : String
deriving DecidableEq

/-- The post-processing `generateTimelinePlan` applies to the planned raw
events (src/services/geminiService.ts lines 162-167):
`{...e, imageUrl: undefined, isGenerated: false, isPanoramic: true}`. -/
def planEvents (raw : List RawPlanEvent) : List TimelineEvent :=
  raw.map (fun e =>
    { year := e.year, title := e.title, description := e.description,
      visualPrompt := e.visualPrompt, imageUrl := none, isGenerated := false,
      isPanoramic := some true, hotspots := none })

/-- Default timeline event (stands for the JS `undefined` that indexing an
empty array would produce). -/
def dfltEvent : TimelineEvent :=
  { year := 0, title := "", description := "", visualPrompt := "",
    imageUrl := none, isGenerated := false, isPanoramic := none, hotspots := none }

instance : Inhabited TimelineEvent := ⟨dfltEvent⟩

/-! ## LazyVisualResolver: the `TimelineImage` generation effect
(src/unnamed/part_001: TimelineImage.tsx lines 60-83) -/

/-- The per-event mutable state the generation effect reads:
`event.imageUrl` and the component-local `isGenerating` flag. -/
structure EventGenState where
  imageUrl : Option String
  isGenerating : Bool
deriving DecidableEq

/-- The guard of the generation effect (TimelineImage.tsx lines 61 and 80):
`if (event.imageUrl || isGenerating) return; ... if (distance < 1.1)
triggerGeneration();` where `distance = |currentProgress - index|`
(line 35). -/
def shouldTrigger (p : ℚ) (i : Nat) (s : EventGenState) : Bool :=
  s.imageUrl.isNone && !s.isGenerating && decide (|p - (i : ℚ)| < 11 / 10)

/-- The actions affecting one event's generation state: the effect running
at scrub position `p`; the in-flight generation completing successfully
(`onGenerated` sets `imageUrl` and `isGenerated`, then the `finally` clears
`isGenerating`); the in-flight generation failing (error logged, `finally`
clears `isGenerating`). -/
inductive ResolverAction where
  | scrub (p : ℚ)
  | complete (img : String)
  | fail
deriving DecidableEq

/-- One event's generation state plus the number of image-render remote
calls issued so far for it. -/
structure EventRun where
  st : EventGenState
  calls : Nat
deriving DecidableEq

/-- One step of the per-event generation state machine
(TimelineImage.tsx lines 60-83 together with `handleLazyImageGenerated`,
src/App.tsx lines 409-418). -/
def stepEvent (i : Nat) (r : EventRun) : ResolverAction → EventRun
  | ResolverAction.scrub p =>
    if shouldTrigger p i r.st then
      { st := { r.st with isGenerating := true }, calls := r.calls + 1 }
    else r
  | ResolverAction.complete img =>
    if r.st.isGenerating then
      { r with st := { imageUrl := some img, isGenerating := false } }
    else r
  | ResolverAction.fail =>
    if r.st.isGenerating then
      { r with st := { r.st with isGenerating := false } }
    else r

/-- Run a sequence of actions against one event's state machine. -/
def runEvent (i : Nat) (r : EventRun) (as : List ResolverAction) : EventRun :=
  as.foldl (stepEvent i) r

/-- The fresh state of an event that has no image yet. -/
def freshEventRun : EventRun := ⟨⟨none, false⟩, 0⟩

/-! ## GenerationPipeline: `startExperience` (src/App.tsx lines 308-350) -/

/-- The remote calls `startExperience` can issue (all via geminiService). -/
inductive RemoteCall where
  | identifyLandmark
  | generateTimelinePlan (name location : String)
  | generateHistoricalImage (ev : TimelineEvent) (name : String)
  | generateNarration (name : String)
deriving DecidableEq

/-- Observable events of one pipeline run: a `setLoadingState` update, a
single awaited remote call, the `Promise.all` join of two remote calls
issued in parallel (src/App.tsx lines 332-335), and a write-through of an
artifact to the persistent cache (`storageService.saveLandmark`). -/
inductive PipeEvent where
  | status (s : LoadingState)
  | call (c : RemoteCall)
  | parCalls (a b : RemoteCall)
  | save (l : LandmarkData)
deriving DecidableEq

/-- Outcomes of the remote capabilities for one pipeline run.  The planning
outcome carries the raw planned events (post-processed by `planEvents`)
and the citation list, matching the `{ timeline, sources }` shape
destructured at src/App.tsx line 328. -/
structure RemoteOutcomes where
  identify : Except RemoteError (String × String)
  plan : Except RemoteError (List RawPlanEvent × List SourceRef)
  firstImage : Except RemoteError String
  narration : Except RemoteError String

/-- The `presetData` argument of `startExperience` (optional fields,
accessed with `?.` in the source). -/
structure PresetData where
  id : Option String
  name : Option String
  location : Option String
deriving DecidableEq

/-- The slice of `App` component state `startExperience` reads or writes
(src/App.tsx lines 27-47): the in-memory artifact cache
`pregeneratedLandmarks`, per-preset statuses, the current artifact,
loading state, view mode and the credential flag. -/
structure AppState where
  viewMode : ViewMode
  presetStatus : String → PresetStatus
  pregeneratedLandmarks : String → Option LandmarkData
  landmarkData : Option LandmarkData
  loadingState : LoadingState
  isSetupComplete : Bool

/-- Pointwise update of a string-keyed map (the spread updates
`setX(prev => ({ ...prev, [id]: v }))`). -/
def updMap {β : Type} (f : String → β) (k : String) (v : β) : String → β :=
  fun x => if x = k then v else f x

/-- Result of one `startExperience` run: its event trace and final state. -/
structure RunResult where
  events : List PipeEvent
  state : AppState

/-- `presetData?.id || 'unknown'` (src/App.tsx line 309). -/
def runId (presetData : Option PresetData) : String :=
  jsOr (presetData.bind PresetData.id) "unknown"

/-- The concrete `setLoadingState` payloads of `startExperience`
(src/App.tsx lines 318, 323, 327, 331, 345, 348). -/
def planning5 : LoadingState :=
  ⟨GenStatus.planning, some "Initializing temporal anchor...", some 5⟩

def identifying15 : LoadingState :=
  ⟨GenStatus.identifying, some "Analyzing target...", some 15⟩

def planning30 (name : String) : LoadingState :=
  ⟨GenStatus.planning, some ("Researching " ++ name ++ "..."), some 30⟩

def visualizing60 : LoadingState :=
  ⟨GenStatus.visualizing, some "Visualizing history...", some 60⟩

def ready100 : LoadingState :=
  ⟨GenStatus.ready, none, some 100⟩

def errorState (msg : String) : LoadingState :=
  ⟨GenStatus.error, some msg, none⟩

/-- The `catch` block of `startExperience` (src/App.tsx lines 346-349):
a quota-exhaustion message resets the credential flag; the error message
(or the fallback text when it is empty/absent) is surfaced verbatim. -/
def failRun (st : AppState) (evs : List PipeEvent) (e : RemoteError) : RunResult :=
  let st1 := if strIncludes e.message "Quota Exhausted"
    then { st with isSetupComplete := false } else st
  let msg := if e.message = "" then "Temporal paradox occurred." else e.message
  { events := evs ++ [PipeEvent.status (errorState msg)]
    state := { st1 with loadingState := errorState msg } }

/-- `timelineEvents.map((ev, i) => i === 0 ? { ...ev, imageUrl: ..., isGenerated: true } : ev)`
(src/App.tsx line 338). -/
def markFirstGenerated (img : String) : List TimelineEvent → List TimelineEvent
  | [] => []
  | e0 :: rest =>
    { e0 with imageUrl := some ("data:image/jpeg;base64," ++ img),
              isGenerated := true } :: rest

/-- The tail of `startExperience` from the planning stage on
(src/App.tsx lines 327-345), entered once `name`/`location` are known:
plan, then the parallel visualize+narrate join, then persist and report
`ready`. -/
def startExperiencePlan (st : AppState) (o : RemoteOutcomes)
    (base64Image : Option String) (isCustom : Bool) (id name loc : String)
    (evs : List PipeEvent) : RunResult :=
  let st2 := { st with loadingState := planning30 name }
  let evs1 := evs ++ [PipeEvent.status (planning30 name),
                      PipeEvent.call (RemoteCall.generateTimelinePlan name loc)]
  match o.plan with
  | Except.error e => failRun st2 evs1 e
  | Except.ok pr =>
    let tl := planEvents pr.1
    let newLandmark : LandmarkData :=
      { id := id, name := name, location := loc, originalImage := base64Image,
        timeline := tl, audioNarrative := none, isCustom := isCustom,
        userNotes := some [], sources := some pr.2 }
    let st3 := { st2 with landmarkData := some newLandmark,
                          loadingState := visualizing60 }
    let evs2 := evs1 ++ [PipeEvent.status visualizing60,
      PipeEvent.parCalls (RemoteCall.generateHistoricalImage tl.headI name)
                         (RemoteCall.generateNarration name)]
    match o.firstImage, o.narration with
    | Except.ok img, Except.ok aud =>
      let updatedLandmark : LandmarkData :=
        { newLandmark with timeline := markFirstGenerated img tl,
                           audioNarrative := some aud }
      { events := evs2 ++ [PipeEvent.save updatedLandmark, PipeEvent.status ready100]
        state := { st3 with
          landmarkData := some updatedLandmark
          pregeneratedLandmarks := updMap st3.pregeneratedLandmarks id (some updatedLandmark)
          presetStatus := updMap st3.presetStatus id PresetStatus.ready
          loadingState := ready100 } }
    | Except.error e, _ => failRun st3 evs2 e
    | Except.ok _, Except.error e => failRun st3 evs2 e

/-- `startExperience` (src/App.tsx lines 308-350).  Control flow:
mark the preset `loading` when invoked from the home view (line 310);
cache-first short circuit on `pregeneratedLandmarks[id]` (lines 311-316);
otherwise run identify (custom image input only, lines 322-326) and hand
over to the planning tail.  On `Promise.all` rejection the first-rejected
error propagates; image rejection is taken first, matching the model's
deterministic reading of the join. -/
def startExperience (st : AppState) (o : RemoteOutcomes) (base64Image : Option String)
    (isCustom : Bool) (presetData : Option PresetData) (ignoreCache : Bool) : RunResult :=
  let id := runId presetData
  let st1 := if st.viewMode ≠ ViewMode.experience
    then { st with presetStatus := updMap st.presetStatus id PresetStatus.loading }
    else st
  if !ignoreCache && (st1.pregeneratedLandmarks id).isSome then
    { events := [PipeEvent.status ready100]
      state := { st1 with
        landmarkData := st1.pregeneratedLandmarks id
        loadingState := ready100
        viewMode := ViewMode.experience } }
  else
    let st2 := { st1 with viewMode := ViewMode.experience, loadingState := planning5 }
    let evs0 := [PipeEvent.status planning5]
    let name0 := jsOr (presetData.bind PresetData.name) "Target Site"
    let loc0 := jsOr (presetData.bind PresetData.location) "Unknown"
    match isCustom && base64Image.isSome, o.identify with
    | true, Except.error e =>
      failRun st2 (evs0 ++ [PipeEvent.status identifying15,
                            PipeEvent.call RemoteCall.identifyLandmark]) e
    | true, Except.ok nl =>
      startExperiencePlan st2 o base64Image isCustom id nl.1 nl.2
        (evs0 ++ [PipeEvent.status identifying15,
                  PipeEvent.call RemoteCall.identifyLandmark])
    | false, _ =>
      startExperiencePlan st2 o base64Image isCustom id name0 loc0 evs0

/-- Total number of remote calls recorded in a trace (a parallel join
issues two). -/
def remoteCallsOf (evs : List PipeEvent) : Nat :=
  evs.foldl (fun n e =>
    match e with
    | PipeEvent.call _ => n + 1
    | PipeEvent.parCalls _ _ => n + 2
    | _ => n) 0

/-- The progress values reported through the status updates of a trace,
in order. -/
def progressReports (evs : List PipeEvent) : List Nat :=
  evs.filterMap (fun e =>
    match e with
    | PipeEvent.status s => s.progress
    | _ => none)

/-! ## PregenerationScheduler: `triggerParallelSync` / `pregeneratePreset`
(src/App.tsx lines 151-171) -/

/-- Remote outcomes for one preset's pregeneration task (plan, then
narration, sequentially). -/
structure PregenOutcome where
  plan : Except RemoteError (List RawPlanEvent × List SourceRef)
  narration : Except RemoteError String

/-- `pregeneratePreset` (src/App.tsx lines 156-171): status goes to
`loading`, then the plan and narration calls run; on success the artifact
is saved and the status becomes `ready`; any failure is caught inside the
task and only flips the status back to `idle` (the error is swallowed).
Returns the preset's final status together with the artifact written to
the cache, if any. -/
def pregeneratePreset (p : Preset) (o : PregenOutcome) :
    PresetStatus × Option LandmarkData :=
  match o.plan with
  | Except.error _ => (PresetStatus.idle, none)
  | Except.ok pr =>
    match o.narration with
    | Except.error _ => (PresetStatus.idle, none)
    | Except.ok aud =>
      (PresetStatus.ready, some
        { id := p.id, name := p.name, location := p.location, originalImage := none,
          timeline := planEvents pr.1, audioNarrative := some aud, isCustom := false,
          userNotes := some [], sources := some pr.2 })

/-- `triggerParallelSync` (src/App.tsx lines 151-154): launch
`pregeneratePreset` for every catalog entry whose current status is
`idle`, joined with `Promise.allSettled` (so every task runs to its own
settled result and no rejection escapes — each task already catches its
own failure).  The function returns the final per-preset status map; a
preset not scheduled keeps its current status. -/
def triggerParallelSync (cur : String → PresetStatus)
    (outcomes : String → PregenOutcome) : String → PresetStatus :=
  fun pid =>
    match (PRESETS.filter (fun p => cur p.id == PresetStatus.idle)).find?
        (fun p => p.id == pid) with
    | some p => (pregeneratePreset p (outcomes pid)).1
    | none => cur pid

/-! ## Concurrent invocations of `startExperience` for one id
(src/App.tsx lines 308-350, split at its `await` suspension points)

JS is single-threaded and cooperative: a `startExperience` invocation runs
synchronously up to its first `await`, and other invocations may interleave
only at `await` points.  For one uncached preset id (non-custom input, all
remote calls succeeding) a run decomposes into these atomic segments:

1. `entry` — the synchronous prefix through the cache check
   `if (!ignoreCache && pregeneratedLandmarks[id])` (line 311): a hit
   finishes immediately with zero remote calls, a miss proceeds;
2. `planning` — `await generateTimelinePlan(...)` (line 328), one remote
   call sequence;
3. `visualizing` — `await Promise.all([generateHistoricalImage, generateNarration])`
   (lines 332-335), two remote calls;
4. `persisting` — `await saveLandmark(...)` then
   `setPregeneratedLandmarks(...)` (lines 342-343): the run's artifact
   becomes visible to later cache checks only here.

Nothing in the source guards the window between one run's cache check and
another run's cache write. -/

/-- Phase of one in-flight `startExperience` run for a fixed uncached id. -/
inductive RunPhase where
  | entry
  | planning
  | visualizing
  | persisting
  | finished
deriving DecidableEq

/-- One run: its phase and the number of remote calls it has issued. -/
structure ProcSt where
  phase : RunPhase
  calls : Nat
deriving DecidableEq

/-- Fire the next segment of a run given the shared in-memory cache entry
for the id; returns the run's new state and the new cache entry.  `art` is
the artifact the run writes when it completes its own generation. -/
def stepProc (cache : Option LandmarkData) (art : LandmarkData) (p : ProcSt) :
    ProcSt × Option LandmarkData :=
  match p.phase with
  | RunPhase.entry =>
    match cache with
    | some _ => ({ p with phase := RunPhase.finished }, cache)
    | none => ({ p with phase := RunPhase.planning }, cache)
  | RunPhase.planning =>
    ({ phase := RunPhase.visualizing, calls := p.calls + 1 }, cache)
  | RunPhase.visualizing =>
    ({ phase := RunPhase.persisting, calls := p.calls + 2 }, cache)
  | RunPhase.persisting =>
    ({ p with phase := RunPhase.finished }, some art)
  | RunPhase.finished => (p, cache)

/-- Two concurrent `startExperience` runs for the same id over the shared
in-memory cache. -/
structure ConcSt where
  cache : Option LandmarkData
  proc1 : ProcSt
  proc2 : ProcSt
deriving DecidableEq

/-- Run a cooperative schedule: `true` fires the next segment of run 1,
`false` of run 2. -/
def runSchedule (art : LandmarkData) : List Bool → ConcSt → ConcSt
  | [], s => s
  | b :: rest, s =>
    if b then
      let (p1, c) := stepProc s.cache art s.proc1
      runSchedule art rest { s with proc1 := p1, cache := c }
    else
      let (p2, c) := stepProc s.cache art s.proc2
      runSchedule art rest { s with proc2 := p2, cache := c }

/-- Initial state: id uncached, both runs at their entry. -/
def concInit : ConcSt :=
  { cache := none, proc1 := ⟨RunPhase.entry, 0⟩, proc2 := ⟨RunPhase.entry, 0⟩ }

/-- The number of remote calls one full cache-miss run issues in this
skeleton (plan, then image+narration in parallel). -/
def callsPerRun : Nat := 3

/-- A throwaway concrete artifact for the concurrency scenarios. -/
def artifact0 : LandmarkData :=
  { id := "eiffel", name := "Eiffel Tower", location := "Paris, France",
    originalImage := none, timeline := [], audioNarrative := none,
    isCustom := false, userNotes := some [], sources := some [] }

/-! ## Concrete instances used by the witnesses -/

/-- A concrete app state whose in-memory cache holds `artifact0` under the
"eiffel" id. -/
def cachedState : AppState :=
  { viewMode := ViewMode.home
    presetStatus := fun _ => PresetStatus.ready
    pregeneratedLandmarks := fun k => if k = "eiffel" then some artifact0 else none
    landmarkData := none
    loadingState := ⟨GenStatus.idle, none, none⟩
    isSetupComplete := true }

/-- A concrete app state with an empty in-memory cache. -/
def emptyState : AppState :=
  { viewMode := ViewMode.home
    presetStatus := fun _ => PresetStatus.idle
    pregeneratedLandmarks := fun _ => none
    landmarkData := none
    loadingState := ⟨GenStatus.idle, none, none⟩
    isSetupComplete := true }

/-- A concrete all-success remote outcome assignment. -/
def okOutcomes : RemoteOutcomes :=
  { identify := Except.ok ("Eiffel Tower", "Paris, France")
    plan := Except.ok ([⟨1889, "Construction", "Built for the World Fair", "iron tower"⟩], [])
    firstImage := Except.ok "imgbytes"
    narration := Except.ok "audiobytes" }

/-- The preset argument of a concrete "eiffel" run. -/
def eiffelPresetData : Option PresetData :=
  some ⟨some "eiffel", some "Eiffel Tower", some "Paris, France"⟩

/-- A pregeneration outcome assignment where "eiffel" fails (overloaded
backend) and every other entity succeeds. -/
def mixedPregenOutcomes : String → PregenOutcome :=
  fun pid =>
    if pid = "eiffel" then
      ⟨Except.error ⟨some 503, none, "overloaded"⟩,
       Except.error ⟨some 503, none, "overloaded"⟩⟩
    else
      ⟨Except.ok ([⟨1882, "Origins", "Foundation laid", "basilica"⟩], []),
       Except.ok "audio"⟩

/-! ## Theorems -/

/-- Characterization of `retryOperation` when every attempt fails with a
retryable error: one more attempt than the retry budget, geometrically
growing base delays with per-attempt jitter, and the last error as the
result. -/
theorem retryOperation_allRetryable {α : Type} (op : Nat → Except RemoteError α)
    (jit : Nat → ℚ) (e : Nat → RemoteError)
    (hop : ∀ k, op k = Except.error (e k))
    (hr : ∀ k, isRetryable (e k) = true) :
    ∀ (retries k0 : Nat) (baseDelay : ℚ),
      (retryOperation op jit k0 retries baseDelay).result = Except.error (e (k0 + retries)) ∧
      (retryOperation op jit k0 retries baseDelay).attempts = retries + 1 ∧
      (retryOperation op jit k0 retries baseDelay).delays =
        (List.range retries).map (fun i => baseDelay * (3 / 2) ^ i + jit (k0 + i))
  | 0, k0, baseDelay => by
    simp [retryOperation, hop k0, hr k0]
  | retries + 1, k0, baseDelay => by
    have ih := retryOperation_allRetryable op jit e hop hr retries (k0 + 1) (baseDelay * (3 / 2))
    simp only [retryOperation, hop k0, hr k0]
    refine ⟨by simpa [Nat.add_comm, Nat.add_assoc, Nat.add_left_comm] using ih.1,
            by simpa using ih.2.1, ?_⟩
    rw [ih.2.2, List.range_succ_eq_map, List.map_cons, List.map_map]
    refine List.cons_eq_cons.mpr ⟨by simp, ?_⟩
    refine List.map_congr_left ?_
    intro i _
    have harg : k0 + 1 + i = k0 + (i + 1) := by omega
    simp only [Function.comp, Nat.succ_eq_add_one, harg, pow_succ]
    ring

/-- C2: for an operation failing on every attempt with a retryable error,
`retryOperation(operation, retries, baseDelay)` invokes the operation
exactly `retries + 1` times (the default budget is `retries = 3`), each
retry waits `baseDelay * 1.5^k` plus that attempt's jitter (drawn below
1000 ms), and the last error propagates unchanged to the caller. -/
theorem C2_retry_bound {α : Type} (op : Nat → Except RemoteError α)
    (jit : Nat → ℚ) (e : Nat → RemoteError) (retries : Nat) (baseDelay : ℚ)
    (hop : ∀ k, op k = Except.error (e k))
    (hr : ∀ k, isRetryable (e k) = true)
    (hjit : ∀ k, 0 ≤ jit k ∧ jit k < 1000) :
    (retryOperation op jit 0 retries baseDelay).attempts = retries + 1 ∧
    (retryOperation op jit 0 retries baseDelay).result = Except.error (e retries) ∧
    (retryOperation op jit 0 retries baseDelay).delays =
      (List.range retries).map (fun i => baseDelay * (3 / 2) ^ i + jit i) ∧
    (∀ d ∈ (retryOperation op jit 0 retries baseDelay).delays,
        ∃ i < retries, baseDelay * (3 / 2) ^ i ≤ d ∧ d < baseDelay * (3 / 2) ^ i + 1000) ∧
    defaultRetries = 3 ∧ defaultBaseDelay = 1500 := by
  have h := retryOperation_allRetryable op jit e hop hr retries 0 baseDelay
  refine ⟨h.2.1, by simpa using h.1, by simpa using h.2.2, ?_, rfl, rfl⟩
  intro d hd
  rw [h.2.2] at hd
  simp only [List.mem_map, List.mem_range] at hd
  obtain ⟨i, hi, rfl⟩ := hd
  refine ⟨i, hi, ?_, ?_⟩
  · have := (hjit (0 + i)).1; linarith
  · have := (hjit (0 + i)).2; linarith

/-- Witness for C2: a concrete always-429 operation with the default
budget of 3 retries is attempted 4 times and its error propagates. -/
theorem C2_retry_bound_witness :
    (retryOperation ((fun _ => Except.error ⟨some 429, none, "rate limited"⟩) :
        Nat → Except RemoteError Unit) (fun _ => 0) 0 3 1500).attempts = 3 + 1 ∧
    (retryOperation ((fun _ => Except.error ⟨some 429, none, "rate limited"⟩) :
        Nat → Except RemoteError Unit) (fun _ => 0) 0 3 1500).result =
      Except.error (⟨some 429, none, "rate limited"⟩ : RemoteError) :=
  have h := C2_retry_bound ((fun _ => Except.error ⟨some 429, none, "rate limited"⟩) :
      Nat → Except RemoteError Unit)
    (fun _ => 0) (fun _ => ⟨some 429, none, "rate limited"⟩) 3 1500
    (fun _ => rfl)
    (fun _ => (by decide : isRetryable ⟨some 429, none, "rate limited"⟩ = true))
    (fun _ => by norm_num)
  ⟨h.1, h.2.1⟩

/-- C6: an operation whose failure carries a status code outside
{429, 500, 503, 504} and a message containing none of "429", "503",
"overloaded", "quota" is invoked exactly once, with no waits, and the
error propagates unchanged, regardless of the remaining retry budget. -/
theorem C6_nonretryable_short_circuit {α : Type} (op : Nat → Except RemoteError α)
    (jit : Nat → ℚ) (e : RemoteError) (retries : Nat) (baseDelay : ℚ)
    (hop : op 0 = Except.error e)
    (hstatus : ∀ s, effStatus e = some s → s ≠ 429 ∧ s ≠ 500 ∧ s ≠ 503 ∧ s ≠ 504)
    (h429 : strIncludes e.message "429" = false)
    (h503 : strIncludes e.message "503" = false)
    (hover : strIncludes e.message "overloaded" = false)
    (hquota : strIncludes e.message "quota" = false) :
    (retryOperation op jit 0 retries baseDelay).result = Except.error e ∧
    (retryOperation op jit 0 retries baseDelay).attempts = 1 ∧
    (retryOperation op jit 0 retries baseDelay).delays = [] := by
  have hret : isRetryable e = false := by
    unfold isRetryable
    rw [h429, h503, hover, hquota]
    cases hs : effStatus e with
    | none => rfl
    | some s =>
      obtain ⟨h1, h2, h3, h4⟩ := hstatus s hs
      simp [h1, h2, h3, h4]
  cases retries with
  | zero => simp [retryOperation, hop]
  | succ r => simp [retryOperation, hop, hret]

/-- Witness for C6: a concrete HTTP 400 failure is attempted exactly once
even with a budget of 3 retries. -/
theorem C6_nonretryable_short_circuit_witness :
    (retryOperation ((fun _ => Except.error ⟨some 400, none, "Bad Request"⟩) :
        Nat → Except RemoteError Unit) (fun _ => 0) 0 3 1500).result =
      Except.error (⟨some 400, none, "Bad Request"⟩ : RemoteError) ∧
    (retryOperation ((fun _ => Except.error ⟨some 400, none, "Bad Request"⟩) :
        Nat → Except RemoteError Unit) (fun _ => 0) 0 3 1500).attempts = 1 ∧
    (retryOperation ((fun _ => Except.error ⟨some 400, none, "Bad Request"⟩) :
        Nat → Except RemoteError Unit) (fun _ => 0) 0 3 1500).delays = [] :=
  C6_nonretryable_short_circuit _ (fun _ => 0) ⟨some 400, none, "Bad Request"⟩ 3 1500 rfl
    (by intro s hs; simp [effStatus] at hs; subst hs; decide)
    (by decide) (by decide) (by decide) (by decide)

/-- Pairing halves the length (integer division). -/
theorem pairBytes_length : ∀ l : List Nat, (pairBytes l).length = l.length / 2
  | [] => by simp [pairBytes]
  | [_] => by simp [pairBytes]
  | _ :: _ :: rest => by
    simp only [pairBytes, List.length_cons, pairBytes_length rest]
    omega

/-- The i-th pair is the (2i, 2i+1) slice of the byte list. -/
theorem pairBytes_getD : ∀ (l : List Nat) (i : Nat), 2 * i + 1 < l.length →
    (pairBytes l).getD i (0, 0) = (l.getD (2 * i) 0, l.getD (2 * i + 1) 0)
  | [], i, h => by simp at h
  | [_], i, h => by simp at h
  | a :: b :: rest, 0, _ => by simp [pairBytes]
  | a :: b :: rest, i + 1, h => by
    have hlen : 2 * i + 1 < rest.length := by
      simp only [List.length_cons] at h; omega
    have ih := pairBytes_getD rest i hlen
    have e1 : 2 * (i + 1) = 2 * i + 1 + 1 := by ring
    have e2 : 2 * (i + 1) + 1 = 2 * i + 1 + 1 + 1 := by ring
    simp only [pairBytes, e1, e2, List.getD_cons_succ, ih]

/-- Dropping the odd tail shortens the list to even length. -/
theorem dropOddTail_length (l : List Nat) :
    (dropOddTail l).length = l.length - l.length % 2 := by
  unfold dropOddTail
  split
  · simp only [List.length_take]
    omega
  · omega

/-- Dropping the odd tail preserves the surviving entries. -/
theorem dropOddTail_getD (l : List Nat) (j : Nat)
    (hj : j < l.length - l.length % 2) :
    (dropOddTail l).getD j 0 = l.getD j 0 := by
  unfold dropOddTail
  split
  · rw [List.getD_eq_getElem?_getD, List.getD_eq_getElem?_getD,
        List.getElem?_take_of_lt]
    omega
  · rfl

/-- `getD` through the int16 map, with compatible defaults. -/
theorem mapInt16_getD : ∀ (l : List (Nat × Nat)) (i : Nat),
    (l.map (fun p => int16OfNat (p.1 + 256 * p.2))).getD i 0 =
      int16OfNat ((l.getD i (0, 0)).1 + 256 * (l.getD i (0, 0)).2)
  | [], i => by simp [int16OfNat]
  | a :: as, 0 => by simp
  | a :: as, i + 1 => by
    simp only [List.map_cons, List.getD_cons_succ]
    exact mapInt16_getD as i

/-- `getD` through the float-conversion map, with compatible defaults. -/
theorem mapDiv_getD : ∀ (l : List Int) (i : Nat),
    (l.map (fun s : Int => (s : ℚ) / 32768)).getD i 0 = ((l.getD i 0 : Int) : ℚ) / 32768
  | [], i => by simp
  | a :: as, 0 => by simp
  | a :: as, i + 1 => by
    simp only [List.map_cons, List.getD_cons_succ]
    exact mapDiv_getD as i

/-- C3: `decodeRawPcm` reads the bytes as headerless little-endian signed
16-bit mono PCM at 24000 Hz, dropping a trailing odd byte: it yields a
1-channel buffer of `⌊byteLength / 2⌋` samples; the 4-byte payload
`00 00 FF 7F` (samples 0x0000, 0x7FFF) yields exactly the two float
samples 0 and 32767/32768; every 3-byte payload yields exactly 1 sample;
and in general sample `i` is the signed 16-bit word formed from bytes
(2i, 2i+1) divided by 32768. -/
theorem C3_pcm_decode_correct :
    decodeRawPcm [0x00, 0x00, 0xFF, 0x7F] =
      { numChannels := 1, sampleRate := 24000, samples := [0, 32767 / 32768] } ∧
    (∀ bytes : List Nat,
        (decodeRawPcm bytes).numChannels = 1 ∧
        (decodeRawPcm bytes).sampleRate = 24000 ∧
        (decodeRawPcm bytes).samples.length = bytes.length / 2) ∧
    (∀ a b c : Nat, (decodeRawPcm [a, b, c]).samples.length = 1) ∧
    (∀ (bytes : List Nat) (i : Nat), 2 * i + 1 < bytes.length →
        (decodeRawPcm bytes).samples.getD i 0 =
          (int16OfNat (bytes.getD (2 * i) 0 + 256 * bytes.getD (2 * i + 1) 0) : ℚ) / 32768) := by
  have hlen : ∀ bytes : List Nat, (decodeRawPcm bytes).samples.length = bytes.length / 2 := by
    intro bytes
    show ((pcmInt16s bytes).map (fun s : Int => (s : ℚ) / 32768)).length = bytes.length / 2
    rw [List.length_map]
    unfold pcmInt16s
    rw [List.length_map, pairBytes_length, dropOddTail_length]
    omega
  have hsamp : pcmInt16s [0, 0, 255, 127] = [0, 32767] := by decide
  have h4 : decodeRawPcm [0x00, 0x00, 0xFF, 0x7F] =
      { numChannels := 1, sampleRate := 24000, samples := [0, 32767 / 32768] } := by
    unfold decodeRawPcm
    rw [hsamp]
    norm_num [AudioBuffer.mk.injEq]
  refine ⟨h4, fun bytes => ⟨rfl, rfl, hlen bytes⟩, ?_, ?_⟩
  · intro a b c
    rw [hlen]
    simp
  · intro bytes i h
    have hd : 2 * i + 1 < (dropOddTail bytes).length := by
      rw [dropOddTail_length]; omega
    simp only [decodeRawPcm]
    rw [mapDiv_getD]
    unfold pcmInt16s
    rw [mapInt16_getD, pairBytes_getD _ i hd,
        dropOddTail_getD bytes (2 * i) (by rw [dropOddTail_length] at hd; omega),
        dropOddTail_getD bytes (2 * i + 1) (by rw [dropOddTail_length] at hd; omega)]

/-- Witness for C3 at a concrete 6-byte payload and sample index 1. -/
theorem C3_pcm_decode_correct_witness :
    (decodeRawPcm [1, 2, 3, 4, 5, 6]).samples.getD 1 0 =
      (int16OfNat ([1, 2, 3, 4, 5, 6].getD (2 * 1) 0 +
        256 * [1, 2, 3, 4, 5, 6].getD (2 * 1 + 1) 0) : ℚ) / 32768 :=
  C3_pcm_decode_correct.2.2.2 [1, 2, 3, 4, 5, 6] 1 (by decide)

/-- C7: the audio loader first attempts the standard container decode and
only on its failure falls back to the raw-PCM decode; a standard success
is returned as is, and the overall decode fails exactly when both
strategies fail. -/
theorem C7_decode_fallback_order (stdResult rawResult : Except String AudioBuffer) :
    (loadAudioDecode stdResult rawResult).1.head? = some DecodeStrategy.standard ∧
    (DecodeStrategy.rawPcm ∈ (loadAudioDecode stdResult rawResult).1 ↔
      stdResult.isOk = false) ∧
    (∀ b, stdResult = Except.ok b →
      loadAudioDecode stdResult rawResult = ([DecodeStrategy.standard], Except.ok b)) ∧
    ((loadAudioDecode stdResult rawResult).2.isOk = false ↔
      (stdResult.isOk = false ∧ rawResult.isOk = false)) := by
  cases stdResult with
  | ok b => cases rawResult <;> simp [loadAudioDecode, Except.isOk, Except.toBool]
  | error e => cases rawResult <;> simp [loadAudioDecode, Except.isOk, Except.toBool]

/-- Witness for C7: a successful standard decode is returned without
attempting the raw fallback. -/
theorem C7_decode_fallback_order_witness :
    loadAudioDecode (Except.ok ⟨1, 44100, []⟩) (Except.error "raw failed") =
      ([DecodeStrategy.standard], Except.ok ⟨1, 44100, []⟩) :=
  (C7_decode_fallback_order (Except.ok ⟨1, 44100, []⟩) (Except.error "raw failed")).2.2.1
    ⟨1, 44100, []⟩ rfl

/-- A step of the event state machine preserves: at most one call issued,
and once a call was issued the event is either in flight or has its image.
Holds for all actions except a generation failure. -/
theorem stepEvent_inv (i : Nat) (a : ResolverAction) (st0 : EventGenState) (calls : Nat)
    (hfail : a ≠ ResolverAction.fail) (h1 : calls ≤ 1)
    (h2 : calls = 1 → st0.isGenerating = true ∨ st0.imageUrl.isSome = true) :
    (stepEvent i ⟨st0, calls⟩ a).calls ≤ 1 ∧
    ((stepEvent i ⟨st0, calls⟩ a).calls = 1 →
      (stepEvent i ⟨st0, calls⟩ a).st.isGenerating = true ∨
      (stepEvent i ⟨st0, calls⟩ a).st.imageUrl.isSome = true) := by
  obtain ⟨img, gen⟩ := st0
  cases a with
  | fail => exact absurd rfl hfail
  | complete im =>
    cases gen <;> simp_all [stepEvent]
  | scrub p =>
    rcases img with _ | v
    · cases gen with
      | false =>
        by_cases hd : |p - (i : ℚ)| < 11 / 10
        · have hst : shouldTrigger p i ⟨none, false⟩ = true := by
            simp [shouldTrigger, hd]
          have hne : calls ≠ 1 := fun hc => by simpa using h2 hc
          have hc0 : calls = 0 := by omega
          subst hc0
          simp [stepEvent, hst]
        · have hst : shouldTrigger p i ⟨none, false⟩ = false := by
            simp [shouldTrigger, hd]
          simp only [stepEvent, hst, Bool.false_eq_true, if_false]
          exact ⟨h1, fun hc => absurd (h2 hc) (by simp)⟩
      | true =>
        have hst : shouldTrigger p i ⟨none, true⟩ = false := by simp [shouldTrigger]
        simp only [stepEvent, hst, Bool.false_eq_true, if_false]
        exact ⟨h1, fun _ => by simp⟩
    · have hst : shouldTrigger p i ⟨some v, gen⟩ = false := by simp [shouldTrigger]
      simp only [stepEvent, hst, Bool.false_eq_true, if_false]
      exact ⟨h1, fun _ => by simp⟩

/-- Over any failure-free action sequence from a fresh event state, at
most one image-render call is ever issued. -/
theorem runEvent_inv (i : Nat) :
    ∀ (acts : List ResolverAction) (r : EventRun),
      (∀ a ∈ acts, a ≠ ResolverAction.fail) →
      r.calls ≤ 1 →
      (r.calls = 1 → r.st.isGenerating = true ∨ r.st.imageUrl.isSome = true) →
      (runEvent i r acts).calls ≤ 1
  | [], _, _, h1, _ => h1
  | a :: acts, r, hf, h1, h2 => by
    have hs := stepEvent_inv i a r.st r.calls (hf a (by simp)) h1 h2
    have hrw : runEvent i r (a :: acts) = runEvent i (stepEvent i r a) acts := rfl
    rw [hrw]
    exact runEvent_inv i acts (stepEvent i r a)
      (fun b hb => hf b (by simp [hb])) hs.1 hs.2

/-- C4: a lazy generation for event index `i` at scrub position `p` is
triggered exactly when `|p - i| < 1.1`, the event has no image yet, and no
generation for it is in flight; a non-eligible scrub leaves the state
untouched; over any failure-free action sequence from a fresh state at
most one image-render call is ever issued, however rapidly `p` oscillates;
and re-entering the zone of an already-generated event issues no duplicate
request. -/
theorem C4_visibility_gated_lazy_generation :
    (∀ (p : ℚ) (i : Nat) (r : EventRun),
        (stepEvent i r (ResolverAction.scrub p)).calls = r.calls + 1 ↔
          (|p - (i : ℚ)| < 11 / 10 ∧ r.st.imageUrl = none ∧ r.st.isGenerating = false)) ∧
    (∀ (p : ℚ) (i : Nat) (r : EventRun),
        ¬(|p - (i : ℚ)| < 11 / 10 ∧ r.st.imageUrl = none ∧ r.st.isGenerating = false) →
          stepEvent i r (ResolverAction.scrub p) = r) ∧
    (∀ (i : Nat) (acts : List ResolverAction),
        (∀ a ∈ acts, a ≠ ResolverAction.fail) →
        (runEvent i freshEventRun acts).calls ≤ 1) ∧
    (∀ (p : ℚ) (i : Nat) (r : EventRun), r.st.imageUrl.isSome = true →
        stepEvent i r (ResolverAction.scrub p) = r) := by
  have hcond : ∀ (p : ℚ) (i : Nat) (s : EventGenState),
      shouldTrigger p i s = true ↔
        (|p - (i : ℚ)| < 11 / 10 ∧ s.imageUrl = none ∧ s.isGenerating = false) := by
    intro p i s
    simp [shouldTrigger, Option.isNone_iff_eq_none, Bool.not_eq_true',
      and_comm, and_left_comm, and_assoc]
  refine ⟨?_, ?_, ?_, ?_⟩
  · intro p i r
    by_cases ht : shouldTrigger p i r.st = true
    · simp [stepEvent, ht, (hcond p i r.st).mp ht]
    · rw [← hcond p i r.st]
      simp [stepEvent, ht]
  · intro p i r h
    rw [← hcond p i r.st] at h
    simp [stepEvent, h]
  · intro i acts hf
    refine runEvent_inv i acts freshEventRun hf (by simp [freshEventRun]) ?_
    intro h
    simp [freshEventRun] at h
  · intro p i r h
    have hst : shouldTrigger p i r.st = false := by
      rcases hx : r.st.imageUrl with _ | v
      · rw [hx] at h; simp at h
      · simp [shouldTrigger, hx]
    simp [stepEvent, hst]

/-- Witness for C4: rapid scrubbing at positions 2.05, 2.04, 2.06 around
index 2 issues at most one image-render call. -/
theorem C4_visibility_gated_lazy_generation_witness :
    (runEvent 2 freshEventRun
      [ResolverAction.scrub (41 / 20), ResolverAction.scrub (51 / 25),
       ResolverAction.scrub (103 / 50)]).calls ≤ 1 :=
  C4_visibility_gated_lazy_generation.2.2.1 2
    [ResolverAction.scrub (41 / 20), ResolverAction.scrub (51 / 25),
     ResolverAction.scrub (103 / 50)] (by decide)

/-- C9: across every run of `startExperience` that ends in the `ready`
state, the sequence of progress values reported through the status
updates is non-decreasing and ends at exactly 100. -/
theorem C9_monotonic_progress (st : AppState) (o : RemoteOutcomes)
    (b : Option String) (c : Bool) (pd : Option PresetData) (ig : Bool)
    (hready : (startExperience st o b c pd ig).state.loadingState.status = GenStatus.ready) :
    List.Chain' (· ≤ ·)
      (progressReports (startExperience st o b c pd ig).events) ∧
    (progressReports (startExperience st o b c pd ig).events).getLast? = some 100 := by
  rcases o with ⟨oid, oplan, oimg, onar⟩
  revert hready
  rcases oplan with eplan | ⟨raw, srcs⟩ <;>
  rcases oid with eid | ⟨nm, lc⟩ <;>
  rcases oimg with eimg | img <;>
  rcases onar with enar | aud <;>
  by_cases hv : st.viewMode ≠ ViewMode.experience <;>
  cases hcb : (c && b.isSome) <;>
  cases hcache : (!ig && (st.pregeneratedLandmarks (runId pd)).isSome) <;>
  simp [startExperience, startExperiencePlan, failRun, errorState, progressReports,
    planning5, identifying15, planning30, visualizing60, ready100, hv, hcb, hcache]

/-- Witness for C9 at a concrete cache-miss all-success run. -/
theorem C9_monotonic_progress_witness :
    List.Chain' (· ≤ ·)
      (progressReports
        (startExperience emptyState okOutcomes none false eiffelPresetData false).events) ∧
    (progressReports
      (startExperience emptyState okOutcomes none false eiffelPresetData false).events).getLast? =
      some 100 :=
  C9_monotonic_progress emptyState okOutcomes none false eiffelPresetData false (by rfl)

/-- C1: for an id whose artifact is already in the in-memory timeline
cache, a `startExperience` invocation without cache bypass issues zero
remote calls, reports only the `ready` status with progress 100, and
returns the identical cached artifact, leaving the cache entry in place. -/
theorem C1_idempotent_cache_first (st : AppState) (o : RemoteOutcomes)
    (base64Image : Option String) (isCustom : Bool) (presetData : Option PresetData)
    (art : LandmarkData)
    (hart : st.pregeneratedLandmarks (runId presetData) = some art) :
    remoteCallsOf (startExperience st o base64Image isCustom presetData false).events = 0 ∧
    (startExperience st o base64Image isCustom presetData false).events =
      [PipeEvent.status ready100] ∧
    (startExperience st o base64Image isCustom presetData false).state.loadingState =
      ready100 ∧
    (startExperience st o base64Image isCustom presetData false).state.landmarkData =
      some art ∧
    (startExperience st o base64Image isCustom presetData false).state.pregeneratedLandmarks
      (runId presetData) = some art := by
  by_cases hv : st.viewMode ≠ ViewMode.experience <;>
    simp [startExperience, hv, hart, remoteCallsOf]

/-- Witness for C1: a cache-hit run on a concrete state returns the cached
artifact with zero remote calls. -/
theorem C1_idempotent_cache_first_witness :
    remoteCallsOf (startExperience cachedState okOutcomes none false eiffelPresetData false).events = 0 ∧
    (startExperience cachedState okOutcomes none false eiffelPresetData false).events =
      [PipeEvent.status ready100] ∧
    (startExperience cachedState okOutcomes none false eiffelPresetData false).state.loadingState =
      ready100 ∧
    (startExperience cachedState okOutcomes none false eiffelPresetData false).state.landmarkData =
      some artifact0 ∧
    (startExperience cachedState okOutcomes none false eiffelPresetData false).state.pregeneratedLandmarks
      (runId eiffelPresetData) = some artifact0 :=
  C1_idempotent_cache_first cachedState okOutcomes none false eiffelPresetData artifact0 (by rfl)

/-- Planning yields as many events as the capability returned. -/
theorem planEvents_length (raw : List RawPlanEvent) :
    (planEvents raw).length = raw.length := by
  simp [planEvents]

/-- Every planned event starts ungenerated (also at out-of-range indices,
where the default event is ungenerated too). -/
theorem planEvents_isGenerated : ∀ (raw : List RawPlanEvent) (i : Nat),
    ((planEvents raw).getD i dfltEvent).isGenerated = false
  | [], i => by simp [planEvents, dfltEvent]
  | e :: raw, 0 => by simp [planEvents]
  | e :: raw, i + 1 => by
    simp only [planEvents, List.map_cons, List.getD_cons_succ]
    exact planEvents_isGenerated raw i

/-- Marking the first event preserves the timeline length. -/
theorem markFirstGenerated_length (img : String) (tl : List TimelineEvent) :
    (markFirstGenerated img tl).length = tl.length := by
  cases tl <;> simp [markFirstGenerated]

/-- Marking the first event leaves every later event untouched. -/
theorem markFirstGenerated_getD_succ (img : String) (tl : List TimelineEvent) (i : Nat) :
    (markFirstGenerated img tl).getD (i + 1) dfltEvent = tl.getD (i + 1) dfltEvent := by
  cases tl <;> simp [markFirstGenerated]

/-- After marking, the first planned event is generated and carries an
image reference. -/
theorem markFirst_planEvents_getD_zero (img : String) (raw : List RawPlanEvent)
    (h : raw ≠ []) :
    ((markFirstGenerated img (planEvents raw)).getD 0 dfltEvent).isGenerated = true ∧
    ((markFirstGenerated img (planEvents raw)).getD 0 dfltEvent).imageUrl.isSome = true := by
  cases raw with
  | nil => exact absurd rfl h
  | cons r rest => simp [planEvents, markFirstGenerated]

/-- C5: on every successful cache-miss run of `startExperience`, the first
event's image render and the narration synthesis are issued as one
parallel join and both complete; the resulting artifact marks exactly
event 0 as generated with its image reference present while every later
event remains ungenerated; and the artifact is written through the cache
(the `save` immediately precedes the final `ready` report). -/
theorem C5_parallel_visualize_then_persist (st : AppState) (o : RemoteOutcomes)
    (b : Option String) (c : Bool) (pd : Option PresetData) (ig : Bool)
    (raw : List RawPlanEvent) (srcs : List SourceRef)
    (hmiss : (!ig && (st.pregeneratedLandmarks (runId pd)).isSome) = false)
    (hplan : o.plan = Except.ok (raw, srcs))
    (hraw : raw ≠ [])
    (hready : (startExperience st o b c pd ig).state.loadingState.status = GenStatus.ready) :
    ∃ art : LandmarkData,
      (startExperience st o b c pd ig).state.landmarkData = some art ∧
      (startExperience st o b c pd ig).state.pregeneratedLandmarks (runId pd) = some art ∧
      (startExperience st o b c pd ig).events.getLast? =
        some (PipeEvent.status ready100) ∧
      (startExperience st o b c pd ig).events.dropLast.getLast? =
        some (PipeEvent.save art) ∧
      PipeEvent.parCalls
        (RemoteCall.generateHistoricalImage (planEvents raw).headI art.name)
        (RemoteCall.generateNarration art.name) ∈
        (startExperience st o b c pd ig).events ∧
      o.firstImage.isOk = true ∧
      o.narration.isOk = true ∧
      art.timeline.length = raw.length ∧
      (art.timeline.getD 0 dfltEvent).isGenerated = true ∧
      (art.timeline.getD 0 dfltEvent).imageUrl.isSome = true ∧
      (∀ i, 0 < i → (art.timeline.getD i dfltEvent).isGenerated = false) := by
  revert hready
  rcases himgE : o.firstImage with eimg | img <;>
  rcases haudE : o.narration with enar | aud <;>
  rcases hidE : o.identify with eid | ⟨nm, lc⟩ <;>
  by_cases hv : st.viewMode ≠ ViewMode.experience <;>
  cases hcb : (c && b.isSome) <;>
  simp only [startExperience, startExperiencePlan, failRun, errorState, updMap,
    planning5, identifying15, planning30, visualizing60, ready100,
    hv, hcb, hmiss, hplan, himgE, haudE, hidE, if_true, if_false,
    List.append_assoc, List.cons_append, List.nil_append, ite_not] <;>
  simp <;>
  exact ⟨by simp [updMap],
    by simp [Except.isOk, Except.toBool],
    by simp [Except.isOk, Except.toBool],
    by simp [markFirstGenerated_length, planEvents_length],
    (by rw [← List.getD_eq_getElem?_getD]
        exact (markFirst_planEvents_getD_zero _ _ hraw).1),
    (by rw [← List.getD_eq_getElem?_getD]
        exact (markFirst_planEvents_getD_zero _ _ hraw).2),
    fun i hi => by
      rw [← List.getD_eq_getElem?_getD]
      cases i with
      | zero => omega
      | succ j =>
        rw [markFirstGenerated_getD_succ]
        exact planEvents_isGenerated raw (j + 1)⟩

/-- Witness for C5 at a concrete cache-miss all-success run. -/
theorem C5_parallel_visualize_then_persist_witness :
    ∃ art : LandmarkData,
      (startExperience emptyState okOutcomes none false eiffelPresetData false).state.landmarkData =
        some art ∧
      (startExperience emptyState okOutcomes none false eiffelPresetData false).state.pregeneratedLandmarks
        (runId eiffelPresetData) = some art ∧
      (startExperience emptyState okOutcomes none false eiffelPresetData false).events.getLast? =
        some (PipeEvent.status ready100) ∧
      (startExperience emptyState okOutcomes none false eiffelPresetData false).events.dropLast.getLast? =
        some (PipeEvent.save art) ∧
      PipeEvent.parCalls
        (RemoteCall.generateHistoricalImage
          (planEvents [⟨1889, "Construction", "Built for the World Fair", "iron tower"⟩]).headI
          art.name)
        (RemoteCall.generateNarration art.name) ∈
        (startExperience emptyState okOutcomes none false eiffelPresetData false).events ∧
      okOutcomes.firstImage.isOk = true ∧
      okOutcomes.narration.isOk = true ∧
      art.timeline.length =
        ([⟨1889, "Construction", "Built for the World Fair", "iron tower"⟩] : List RawPlanEvent).length ∧
      (art.timeline.getD 0 dfltEvent).isGenerated = true ∧
      (art.timeline.getD 0 dfltEvent).imageUrl.isSome = true ∧
      (∀ i, 0 < i → (art.timeline.getD i dfltEvent).isGenerated = false) :=
  C5_parallel_visualize_then_persist emptyState okOutcomes none false eiffelPresetData false
    [⟨1889, "Construction", "Built for the World Fair", "iron tower"⟩] []
    (by rfl) (by rfl) (by simp) (by rfl)

/-- The final status `triggerParallelSync` gives an idle catalog entity is
decided by that entity's own outcome alone: `ready` when both its calls
succeed, back to `idle` otherwise. -/
theorem syncStatus_of_idle (cur : String → PresetStatus)
    (outcomes : String → PregenOutcome) (p : Preset)
    (hp : p ∈ PRESETS) (hidle : cur p.id = PresetStatus.idle) :
    triggerParallelSync cur outcomes p.id =
      (match (outcomes p.id).plan with
       | Except.error _ => PresetStatus.idle
       | Except.ok _ =>
         match (outcomes p.id).narration with
         | Except.error _ => PresetStatus.idle
         | Except.ok _ => PresetStatus.ready) := by
  unfold triggerParallelSync
  have hmem : p ∈ PRESETS.filter (fun q => cur q.id == PresetStatus.idle) := by
    simp [List.mem_filter, hp, hidle]
  have hfind : ((PRESETS.filter (fun q => cur q.id == PresetStatus.idle)).find?
      (fun q => q.id == p.id)).isSome := by
    rw [List.find?_isSome]
    exact ⟨p, hmem, by simp⟩
  obtain ⟨q, hq⟩ := Option.isSome_iff_exists.mp hfind
  rw [hq]
  rcases hpl : (outcomes p.id).plan with e | pr <;>
    rcases hna : (outcomes p.id).narration with e2 | aud <;>
      simp [pregeneratePreset, hpl, hna]

/-- C8: pregeneration catches each entity's failure inside its own task:
a failing entity's status returns to `idle`, every other idle entity
independently reaches `ready` on its own success, and an entity's final
status depends only on its own outcome (the fan-out is a settle-all join,
so no rejection escapes the scheduler by construction). -/
theorem C8_fleet_independence (cur : String → PresetStatus)
    (outcomes : String → PregenOutcome) (pA pB : Preset)
    (hA : pA ∈ PRESETS) (hB : pB ∈ PRESETS)
    (hAidle : cur pA.id = PresetStatus.idle) (hBidle : cur pB.id = PresetStatus.idle)
    (hAfail : (∃ e, (outcomes pA.id).plan = Except.error e) ∨
      (∃ e, (outcomes pA.id).narration = Except.error e))
    (hBplan : ∃ pr, (outcomes pB.id).plan = Except.ok pr)
    (hBnarr : ∃ aud, (outcomes pB.id).narration = Except.ok aud) :
    triggerParallelSync cur outcomes pA.id = PresetStatus.idle ∧
    triggerParallelSync cur outcomes pB.id = PresetStatus.ready ∧
    (∀ outcomes2 : String → PregenOutcome, outcomes2 pB.id = outcomes pB.id →
      triggerParallelSync cur outcomes2 pB.id = triggerParallelSync cur outcomes pB.id) := by
  refine ⟨?_, ?_, ?_⟩
  · rw [syncStatus_of_idle cur outcomes pA hA hAidle]
    rcases hAfail with ⟨e, he⟩ | ⟨e, he⟩
    · simp [he]
    · rcases hpl : (outcomes pA.id).plan with e2 | pr <;> simp [hpl, he]
  · obtain ⟨pr, hpr⟩ := hBplan
    obtain ⟨aud, haud⟩ := hBnarr
    rw [syncStatus_of_idle cur outcomes pB hB hBidle]
    simp [hpr, haud]
  · intro outcomes2 hsame
    rw [syncStatus_of_idle cur outcomes2 pB hB hBidle,
        syncStatus_of_idle cur outcomes pB hB hBidle, hsame]

/-- Witness for C8: with "eiffel" failing (overloaded) and "sagrada"
succeeding, "eiffel" ends `idle` and "sagrada" ends `ready`. -/
theorem C8_fleet_independence_witness :
    triggerParallelSync (fun _ => PresetStatus.idle) mixedPregenOutcomes "eiffel" =
      PresetStatus.idle ∧
    triggerParallelSync (fun _ => PresetStatus.idle) mixedPregenOutcomes "sagrada" =
      PresetStatus.ready :=
  have h := C8_fleet_independence (fun _ => PresetStatus.idle) mixedPregenOutcomes
    ⟨"eiffel", "Eiffel Tower", "Paris, France",
      "https://images.unsplash.com/photo-1511739001486-6bfe10ce785f?auto=format&fit=crop&q=80&w=800"⟩
    ⟨"sagrada", "Sagrada Família", "Barcelona, Spain", "./images/sagrada.png"⟩
    (by decide) (by decide) rfl rfl
    (Or.inl ⟨⟨some 503, none, "overloaded"⟩, rfl⟩)
    ⟨([⟨1882, "Origins", "Foundation laid", "basilica"⟩], []), rfl⟩
    ⟨"audio", rfl⟩
  ⟨h.1, h.2.1⟩

/-- C10 counterexample: two concurrent `startExperience` runs for the same
uncached id, interleaved so that both synchronous cache checks happen
before either run persists (the schedule alternates the two runs at their
`await` points), each issue their own full set of remote calls — 3 + 3
in total, not the single set of 3 the claim requires.  Nothing in
`startExperience` makes the second caller observe or wait on the first. -/
theorem C10_counterexample :
    (runSchedule artifact0 [true, false, true, false, true, false, true, false]
      concInit).proc1.phase = RunPhase.finished ∧
    (runSchedule artifact0 [true, false, true, false, true, false, true, false]
      concInit).proc2.phase = RunPhase.finished ∧
    (runSchedule artifact0 [true, false, true, false, true, false, true, false]
      concInit).proc1.calls = callsPerRun ∧
    (runSchedule artifact0 [true, false, true, false, true, false, true, false]
      concInit).proc2.calls = callsPerRun ∧
    (runSchedule artifact0 [true, false, true, false, true, false, true, false]
      concInit).proc1.calls +
      (runSchedule artifact0 [true, false, true, false, true, false, true, false]
        concInit).proc2.calls ≠ callsPerRun := by
  refine ⟨rfl, rfl, rfl, rfl, ?_⟩
  decide

/-- C10 amended: concurrent `startExperience` runs for the same uncached
id are not deduplicated — a run whose synchronous cache check precedes the
other run's cache write issues its own full set of remote calls, so two
interleaved runs issue two full sets; a run short-circuits with zero
remote calls only when it enters after the other has already persisted
its artifact to the in-memory cache. -/
theorem C10_no_concurrent_dedup (art : LandmarkData) :
    ((runSchedule art [true, false, true, false, true, false, true, false]
        concInit).proc1.calls = callsPerRun ∧
     (runSchedule art [true, false, true, false, true, false, true, false]
        concInit).proc2.calls = callsPerRun) ∧
    ((runSchedule art [true, true, true, true, false] concInit).proc1.calls = callsPerRun ∧
     (runSchedule art [true, true, true, true, false] concInit).proc2.calls = 0 ∧
     (runSchedule art [true, true, true, true, false] concInit).proc2.phase =
       RunPhase.finished) :=
  ⟨⟨rfl, rfl⟩, rfl, rfl, rfl⟩
